import Mathlib

/-!
Shallow embedding of the dentech-floss/orm wrapper: configuration default
resolution, connection-string (DSN) building, handle construction with
panic-on-setup-failure, and the migration wrappers over the delegated
migration library.  Go nullable pointers are modelled as `Option` values,
`os.LookupEnv` as an explicit `Option String` argument, and the fallible
external calls (`gorm.Open`, `db.Use`, `db.DB()`) as an explicit failure
environment (`World`).
-/

/-- Error values flowing through the embedding.  Failures injected by the
external libraries are `external n`; a Go nil-pointer dereference is the
distinguished `nilDeref`; the remaining constructors are the delegated
migration library's sentinel errors. -/
inductive Err where
  | external (n : Nat)
  | nilDeref
  | noRunMigration
  | rollbackImpossible
  | migrationIDMissing
  deriving DecidableEq, Repr

/-- Model of `gorm.io/gorm/logger.Interface` values: the two defaults the
source constructs (`logger.Discard.LogMode(logger.Silent)` and
`logger.Default.LogMode(logger.Info)`) plus caller-supplied loggers. -/
inductive LoggerKind where
  | discardSilent
  | defaultInfo
  | custom (id : Nat)
  deriving DecidableEq, Repr

/-- `OrmConfig` — configuration structure for config values at ORM module.
Go `*int` / `*logger.Interface` fields are `Option` values. -/
structure OrmConfig where
  OnGCP : Bool
  DbName : String
  DbUser : String
  DbPassword : String
  DbHost : String
  DbPort : Option Int
  MaxIdleConns : Option Int
  MaxOpenConns : Option Int
  ConnMaxLifetimeMins : Option Int
  Logger : Option LoggerKind
  deriving DecidableEq, Repr

def defaultDbPort : Int := 3306

def defaultMaxIdleConns : Int := 100

def defaultMaxOpenConns : Int := 100

def defaultConnMaxLifetimeMins : Int := 15

def defaultMySqlLogger : LoggerKind := LoggerKind.discardSilent

def defaultSQLiteLogger : LoggerKind := LoggerKind.defaultInfo

/-- `(c *OrmConfig) setDefaults(defaultLogger logger.Interface)`: each
optional field that is nil is set to the package default; set fields are
left alone.  The Go method mutates `c` in place; here the updated
configuration is returned. -/
def OrmConfig.setDefaults (c : OrmConfig) (defaultLogger : LoggerKind) : OrmConfig :=
  let c1 := if c.DbPort.isNone then { c with DbPort := some defaultDbPort } else c
  let c2 := if c1.MaxIdleConns.isNone then
    { c1 with MaxIdleConns := some defaultMaxIdleConns } else c1
  let c3 := if c2.MaxOpenConns.isNone then
    { c2 with MaxOpenConns := some defaultMaxOpenConns } else c2
  let c4 := if c3.ConnMaxLifetimeMins.isNone then
    { c3 with ConnMaxLifetimeMins := some defaultConnMaxLifetimeMins } else c3
  if c4.Logger.isNone then { c4 with Logger := some defaultLogger } else c4

/-- `unixDsn`: socket directory comes from the `DB_SOCKET_DIR` environment
variable (`env`), defaulting to the literal `"cloudsql"` when unset; the
descriptor is built with `fmt.Sprintf` on user, password, socket dir, host
and database name. -/
def unixDsn (env : Option String) (config : OrmConfig) : String :=
  let socketDir := match env with
    | some s => s
    | none => "cloudsql"
  config.DbUser ++ ":" ++ config.DbPassword ++ "@unix(/" ++ socketDir ++ "/"
    ++ config.DbHost ++ ")/" ++ config.DbName ++ "?charset=utf8mb4&parseTime=true"

/-- `tcpDsn`: dereferences `*config.DbPort` (modelled fallibly: `none` when
the pointer is nil), converts it with `strconv.Itoa`, and builds the TCP
descriptor. -/
def tcpDsn (config : OrmConfig) : Option String :=
  match config.DbPort with
  | none => none
  | some port =>
    some (config.DbUser ++ ":" ++ config.DbPassword ++ "@tcp(" ++ config.DbHost
      ++ ":" ++ toString port ++ ")/" ++ config.DbName ++ "?parseTime=true")

/-- `dsn`: Unix-socket descriptor when running on GCP, TCP descriptor
otherwise. -/
def dsn (env : Option String) (config : OrmConfig) : Option String :=
  if config.OnGCP then some (unixDsn env config) else tcpDsn config

/-- Model of the `database/sql` pool handle: the three knobs the wrapper
tunes (`SetMaxIdleConns`, `SetMaxOpenConns`, `SetConnMaxLifetime`, the
last stored in nanoseconds). -/
structure SqlDB where
  maxIdleConns : Int
  maxOpenConns : Int
  connMaxLifetime : Int
  deriving DecidableEq, Repr

/-- Model of a `*gorm.DB` handle: the source string it was opened with,
the logger from `gorm.Config`, the installed plugins, and its pool. -/
structure GormDB where
  source : String
  loggerUsed : LoggerKind
  plugins : List String
  pool : SqlDB
  deriving DecidableEq, Repr

/-- Failure environment for the three fallible external calls made during
construction: `gorm.Open`, `db.Use` (plugin install) and `db.DB()` (pool
retrieval).  `some n` injects failure `Err.external n`. -/
structure World where
  openErr : Option Nat
  useErr : Option Nat
  dbErr : Option Nat
  deriving DecidableEq, Repr

/-- `gorm.Open(dialector, &gorm.Config{Logger: lg})`: fails per the
environment, otherwise yields a fresh handle with no plugins. -/
def gormOpen (w : World) (source : String) (lg : LoggerKind) : Except Err GormDB :=
  match w.openErr with
  | some n => Except.error (Err.external n)
  | none =>
    Except.ok
      { source := source
        loggerUsed := lg
        plugins := []
        pool := { maxIdleConns := 0, maxOpenConns := 0, connMaxLifetime := 0 } }

/-- `db.Use(otelgorm.NewPlugin())`: fails per the environment, otherwise
records the plugin on the handle. -/
def dbUse (w : World) (db : GormDB) (plugin : String) : Except Err GormDB :=
  match w.useErr with
  | some n => Except.error (Err.external n)
  | none => Except.ok { db with plugins := db.plugins ++ [plugin] }

/-- `db.DB()`: fails per the environment, otherwise yields the low-level
pool object. -/
def dbDB (w : World) (db : GormDB) : Except Err SqlDB :=
  match w.dbErr with
  | some n => Except.error (Err.external n)
  | none => Except.ok db.pool

/-- `Orm` — main structure for orm object: the gorm handle plus the
resolved configuration. -/
structure Orm where
  db : GormDB
  config : OrmConfig
  deriving DecidableEq, Repr

/-- Outcome of a constructor call: Go `panic(err)` terminates the process
(`panicked`), a normal return yields the handle (`returned`).  There is no
error-returning branch, mirroring the Go signatures which return `*Orm`
with no `error` result. -/
inductive ConstructorOutcome where
  | panicked (e : Err)
  | returned (o : Orm)
  deriving DecidableEq, Repr

def nanosPerMinute : Int := 60000000000

/-- `newOrm(db, config)`: install the tracing plugin (panic on failure),
retrieve the pool (panic on failure), then dereference the three pool
fields — a nil pointer at any of them is a Go runtime panic, modelled as
`panicked Err.nilDeref` — and apply the limits. -/
def newOrm (w : World) (db : GormDB) (config : OrmConfig) : ConstructorOutcome :=
  match dbUse w db "otelgorm" with
  | Except.error e => ConstructorOutcome.panicked e
  | Except.ok db1 =>
    match dbDB w db1 with
    | Except.error e => ConstructorOutcome.panicked e
    | Except.ok _sqlDB =>
      match config.MaxIdleConns with
      | none => ConstructorOutcome.panicked Err.nilDeref
      | some idle =>
        match config.MaxOpenConns with
        | none => ConstructorOutcome.panicked Err.nilDeref
        | some opn =>
          match config.ConnMaxLifetimeMins with
          | none => ConstructorOutcome.panicked Err.nilDeref
          | some life =>
            ConstructorOutcome.returned
              { db :=
                  { db1 with
                    pool :=
                      { maxIdleConns := idle
                        maxOpenConns := opn
                        connMaxLifetime := life * nanosPerMinute } }
                config := config }

/-- `NewMySqlOrm(config)`: resolve defaults with the MySQL default logger,
build the DSN (dereferencing `DbPort` in TCP mode), dereference
`*config.Logger` for `gorm.Config`, open the MySQL handle (panic on
failure) and finish with `newOrm`.  Returns the resolved configuration
(Go mutates the caller's struct) alongside the outcome. -/
def NewMySqlOrm (w : World) (env : Option String) (config : OrmConfig) :
    OrmConfig × ConstructorOutcome :=
  let c := config.setDefaults defaultMySqlLogger
  match dsn env c with
  | none => (c, ConstructorOutcome.panicked Err.nilDeref)
  | some d =>
    match c.Logger with
    | none => (c, ConstructorOutcome.panicked Err.nilDeref)
    | some lg =>
      match gormOpen w d lg with
      | Except.error e => (c, ConstructorOutcome.panicked e)
      | Except.ok db => (c, newOrm w db c)

/-- `NewSQLiteOrm(config)`: resolve defaults with the SQLite default
logger, open the shared in-memory store (panic on failure) and finish with
`newOrm`. -/
def NewSQLiteOrm (w : World) (config : OrmConfig) : OrmConfig × ConstructorOutcome :=
  let c := config.setDefaults defaultSQLiteLogger
  match c.Logger with
  | none => (c, ConstructorOutcome.panicked Err.nilDeref)
  | some lg =>
    match gormOpen w "file::memory:?cache=shared" lg with
    | Except.error e => (c, ConstructorOutcome.panicked e)
    | Except.ok db => (c, newOrm w db c)

/-! Migration side: the delegated migration library (`gormigrate`) and the
repository's wrappers around it. -/

/-- `gormigrate.Options`.  Fields as used by the wrappers; `DefaultOptions`
is a package-level pointer to a mutable `Options` value (the repository's
code assigns it to `*gormigrate.Options` variables and writes through it). -/
structure Options where
  TableName : String
  IDColumnName : String
  IDColumnSize : Int
  UseTransaction : Bool
  ValidateUnknownMigrations : Bool
  deriving DecidableEq, Repr

/-- Initial value of the delegated library's `DefaultOptions` object
(transaction wrapping off). -/
def gormigrateDefaultOptionsInit : Options :=
  { TableName := "migrations"
    IDColumnName := "id"
    IDColumnSize := 255
    UseTransaction := false
    ValidateUnknownMigrations := false }

/-- Mutable global state: the object behind the delegated library's
`DefaultOptions` pointer.  Code that writes through the pointer updates
this state. -/
structure GlobalState where
  defaultOptions : Options
  deriving DecidableEq, Repr

/-- A Go `*gormigrate.Options` value: nil, the shared `DefaultOptions`
pointer, or a pointer to a caller-local options value. -/
inductive OptionsPtr where
  | null
  | globalDefaults
  | value (o : Options)
  deriving DecidableEq, Repr

/-- Read through an options pointer in global state `g` (for non-nil
pointers). -/
def readOptions (g : GlobalState) : OptionsPtr → Options
  | OptionsPtr.null => g.defaultOptions
  | OptionsPtr.globalDefaults => g.defaultOptions
  | OptionsPtr.value o => o

/-- Abstract database state acted on by migration forward/reverse
actions. -/
abbrev DbState : Type := Nat

/-- `gormigrate.Migration`: identifier, forward action, optional reverse
action.  Actions act on the abstract database state and may fail. -/
structure GMigration where
  ID : String
  MigrateFn : DbState → Except Err DbState
  RollbackFn : Option (DbState → Except Err DbState)

/-- State tracked by the delegated migration mechanism: the database
state, the applied-records (identifiers in apply order, the bookkeeping
table), and a log of the forward actions actually invoked (`attempted`),
used to express that steps after a failure are not attempted. -/
structure MigTrackState where
  db : DbState
  applied : List String
  attempted : List String
  deriving DecidableEq, Repr

/-- Modelled from the spec: the delegated migration library's apply loop —
"apply every step whose identifier is not yet recorded as applied, in
sequence order, recording each as applied immediately after its forward
action succeeds; ... propagates the first failure and halts — steps after
the failure point are not attempted". -/
def goMig : List GMigration → MigTrackState → MigTrackState × Option Err
  | [], s => (s, none)
  | m :: rest, s =>
    if m.ID ∈ s.applied then goMig rest s
    else
      match m.MigrateFn s.db with
      | Except.error e => ({ s with attempted := s.attempted ++ [m.ID] }, some e)
      | Except.ok d =>
        goMig rest
          { db := d
            applied := s.applied ++ [m.ID]
            attempted := s.attempted ++ [m.ID] }

/-- Modelled from the spec: `gormigrate.Migrate` — the apply loop, and
when transaction wrapping is enabled "a mid-batch failure leaves no
partial step applied": database state and applied-records revert to the
initial ones (the attempted log is kept, recording which forward actions
ran). -/
def gormigrateMigrate (useTransaction : Bool) (steps : List GMigration)
    (s : MigTrackState) : MigTrackState × Option Err :=
  let r := goMig steps s
  if useTransaction then
    match r with
    | (fin, some e) => ({ s with attempted := fin.attempted }, some e)
    | (fin, none) => (fin, none)
  else r

/-- Modelled from the spec: `gormigrate.RollbackLast` — "reverses exactly
the most recently applied migration step by invoking its reverse action
and removing its applied-record; fails if the most recent step has no
reverse action defined, or if no steps are recorded as applied", with
state unchanged on every failure.  The options argument is carried from
the wrapper but the spec describes no dependence of rollback on it. -/
def gormigrateRollbackLast (_o : Options) (steps : List GMigration)
    (s : MigTrackState) : MigTrackState × Option Err :=
  match s.applied.getLast? with
  | none => (s, some Err.noRunMigration)
  | some lastId =>
    match steps.find? (fun m => m.ID == lastId) with
    | none => (s, some Err.migrationIDMissing)
    | some m =>
      match m.RollbackFn with
      | none => (s, some Err.rollbackImpossible)
      | some rb =>
        match rb s.db with
        | Except.error e => (s, some e)
        | Except.ok d => ({ s with db := d, applied := s.applied.dropLast }, none)

/-- Replacement of a nil options pointer by the shared `DefaultOptions`
pointer (`if options == nil { options = gormigrate.DefaultOptions }`). -/
def resolvePtr : OptionsPtr → OptionsPtr
  | OptionsPtr.null => OptionsPtr.globalDefaults
  | p => p

/-- `(db *Orm) RunMigrations(options, migrations)` from `pkg/orm`
`migration.go`: nil options are replaced by the shared `DefaultOptions`
pointer, the delegated runner is invoked, and its error (if any) is
returned unchanged.  Returns (global state, migration-tracking state,
result). -/
def Orm.RunMigrations (_o : Orm) (g : GlobalState) (s : MigTrackState)
    (options : OptionsPtr) (migrations : List GMigration) :
    GlobalState × MigTrackState × Except Err Unit :=
  let opts := readOptions g (resolvePtr options)
  match gormigrateMigrate opts.UseTransaction migrations s with
  | (fin, some e) => (g, fin, Except.error e)
  | (fin, none) => (g, fin, Except.ok ())

/-- `(db *Orm) RunMigrationsInSingleTransaction(migrations)`:
`options := gormigrate.DefaultOptions` copies the pointer, so
`options.UseTransaction = true` writes through it and mutates the shared
global default options; the (now mutated) global options are then passed
to `RunMigrations`. -/
def Orm.RunMigrationsInSingleTransaction (o : Orm) (g : GlobalState)
    (s : MigTrackState) (migrations : List GMigration) :
    GlobalState × MigTrackState × Except Err Unit :=
  let g1 : GlobalState :=
    { defaultOptions := { g.defaultOptions with UseTransaction := true } }
  Orm.RunMigrations o g1 s OptionsPtr.globalDefaults migrations

/-- Definition following the claim's words, for the refinement comparison:
`RunMigrations` called with options equal to the delegated library's
default options with the `UseTransaction` flag set to true — an options
value of its own, leaving the shared global defaults untouched. -/
def specRunMigrationsDefaultsSingleTx (o : Orm) (g : GlobalState)
    (s : MigTrackState) (migrations : List GMigration) :
    GlobalState × MigTrackState × Except Err Unit :=
  Orm.RunMigrations o g s
    (OptionsPtr.value { g.defaultOptions with UseTransaction := true }) migrations

namespace migration

/-- `Migration` — migration object structure from the `migration`
package: the borrowed orm handle and its own options object. -/
structure Migration where
  db : Orm
  options : Options

/-- `Option` — type for function for options change (pure on options
values; the only constructor in the repository, `WithUseTransaction`,
mutates and returns its argument). -/
def OptionFn : Type := Options → Options

/-- `WithUseTransaction` — add UseTransaction = true to options. -/
def WithUseTransaction (o : Options) : Options :=
  { o with UseTransaction := true }

/-- `NewMigration(db, options...)`: `*goptions = *gormigrate.DefaultOptions`
copies the shared default options BY VALUE into a fresh object, then the
caller's option functions are applied to that object in the order
supplied.  The global state is returned unchanged alongside the new
`Migration`. -/
def NewMigration (g : GlobalState) (db : Orm) (options : List OptionFn) :
    Migration × GlobalState :=
  let goptions := g.defaultOptions
  let goptions2 := options.foldl (fun acc f => f acc) goptions
  ({ db := db, options := goptions2 }, g)

/-- `(m Migration) RunMigrations(migrations)`: delegate with `m.options`,
propagating any error unchanged. -/
def RunMigrations (m : Migration) (s : MigTrackState)
    (migrations : List GMigration) : MigTrackState × Except Err Unit :=
  match gormigrateMigrate m.options.UseTransaction migrations s with
  | (fin, some e) => (fin, Except.error e)
  | (fin, none) => (fin, Except.ok ())

/-- `(m Migration) RollbackLastMigration(migrations)`: delegate to
`RollbackLast` with `m.options`, propagating any error unchanged. -/
def RollbackLastMigration (m : Migration) (s : MigTrackState)
    (migrations : List GMigration) : MigTrackState × Except Err Unit :=
  match gormigrateRollbackLast m.options migrations s with
  | (fin, some e) => (fin, Except.error e)
  | (fin, none) => (fin, Except.ok ())

end migration

/-! Helper notions used by the theorems: substring testing for the
descriptor claims, and concrete fixtures from the spec's scenarios. -/

/-- Decidable sublist-of-consecutive-elements test: `hasSubList pat l` is
true when `pat` occurs consecutively inside `l`. -/
def hasSubList (pat : List Char) : List Char → Bool
  | [] => pat.isEmpty
  | c :: rest => pat.isPrefixOf (c :: rest) || hasSubList pat rest

/-- `strContains s pat` is true when `pat` occurs as a consecutive
substring of `s`. -/
def strContains (s pat : String) : Bool :=
  hasSubList pat.toList s.toList

/-- The spec's scenario configuration
`{name:"clinic", user:"u", password:"p", host:"h", socketMode:false}`. -/
def clinicConfig : OrmConfig :=
  { OnGCP := false
    DbName := "clinic"
    DbUser := "u"
    DbPassword := "p"
    DbHost := "h"
    DbPort := none
    MaxIdleConns := none
    MaxOpenConns := none
    ConnMaxLifetimeMins := none
    Logger := none }

/-! Helper lemmas shared by the claim theorems. -/

theorem setDefaults_spec (c : OrmConfig) (l : LoggerKind) :
    (c.setDefaults l).OnGCP = c.OnGCP
    ∧ (c.setDefaults l).DbName = c.DbName
    ∧ (c.setDefaults l).DbUser = c.DbUser
    ∧ (c.setDefaults l).DbPassword = c.DbPassword
    ∧ (c.setDefaults l).DbHost = c.DbHost
    ∧ (c.setDefaults l).DbPort = some (c.DbPort.getD defaultDbPort)
    ∧ (c.setDefaults l).MaxIdleConns = some (c.MaxIdleConns.getD defaultMaxIdleConns)
    ∧ (c.setDefaults l).MaxOpenConns = some (c.MaxOpenConns.getD defaultMaxOpenConns)
    ∧ (c.setDefaults l).ConnMaxLifetimeMins
        = some (c.ConnMaxLifetimeMins.getD defaultConnMaxLifetimeMins)
    ∧ (c.setDefaults l).Logger = some (c.Logger.getD l) := by
  obtain ⟨gcp, nm, us, pw, hs, port, idle, opn, life, lg⟩ := c
  cases port <;> cases idle <;> cases opn <;> cases life <;> cases lg <;>
    simp [OrmConfig.setDefaults]

theorem goMig_append (l1 l2 : List GMigration) (s : MigTrackState) :
    goMig (l1 ++ l2) s =
      match goMig l1 s with
      | (s1, none) => goMig l2 s1
      | (s1, some e) => (s1, some e) := by
  induction l1 generalizing s with
  | nil => simp [goMig]
  | cons m rest ih =>
    simp only [List.cons_append, goMig]
    by_cases hmem : m.ID ∈ s.applied
    · simp only [if_pos hmem]
      exact ih s
    · simp only [if_neg hmem]
      cases hf : m.MigrateFn s.db with
      | error e => simp
      | ok d =>
        simp only []
        exact ih _

theorem goMig_ok_of_all_ok (l : List GMigration) (s : MigTrackState)
    (h : ∀ mg, mg ∈ l → ∀ d, ∃ d2, mg.MigrateFn d = Except.ok d2) :
    (goMig l s).2 = none := by
  induction l generalizing s with
  | nil => simp [goMig]
  | cons m rest ih =>
    simp only [goMig]
    by_cases hmem : m.ID ∈ s.applied
    · simp only [if_pos hmem]
      exact ih s (fun mg hmg => h mg (List.mem_cons_of_mem _ hmg))
    · simp only [if_neg hmem]
      obtain ⟨d2, hd2⟩ := h m (List.mem_cons_self _ _) s.db
      rw [hd2]
      exact ih _ (fun mg hmg => h mg (List.mem_cons_of_mem _ hmg))

theorem gormigrateMigrate_snd (ut : Bool) (l : List GMigration) (s : MigTrackState) :
    (gormigrateMigrate ut l s).2 = (goMig l s).2 := by
  unfold gormigrateMigrate
  rcases h : goMig l s with ⟨fin, err⟩
  cases ut <;> cases err <;> simp [h]

theorem gormigrateMigrate_false (l : List GMigration) (s : MigTrackState) :
    gormigrateMigrate false l s = goMig l s := by
  simp [gormigrateMigrate]

/-! Claim theorems. -/

/-- C1: for every configuration in which an optional field (DbPort,
MaxIdleConns, MaxOpenConns, ConnMaxLifetimeMins) is unset (nil), after
default resolution (`setDefaults`, invoked by `NewMySqlOrm`/`NewSQLiteOrm`)
the corresponding field holds the documented default: port 3306, max idle
connections 100, max open connections 100, connection max lifetime 15
minutes. -/
theorem c1_setDefaults_documented_defaults (c : OrmConfig) (l : LoggerKind) :
    (c.DbPort = none → (c.setDefaults l).DbPort = some 3306)
    ∧ (c.MaxIdleConns = none → (c.setDefaults l).MaxIdleConns = some 100)
    ∧ (c.MaxOpenConns = none → (c.setDefaults l).MaxOpenConns = some 100)
    ∧ (c.ConnMaxLifetimeMins = none →
        (c.setDefaults l).ConnMaxLifetimeMins = some 15) := by
  obtain ⟨gcp, nm, us, pw, hs, port, idle, opn, life, lg⟩ := c
  cases port <;> cases idle <;> cases opn <;> cases life <;> cases lg <;>
    simp [OrmConfig.setDefaults, defaultDbPort, defaultMaxIdleConns,
      defaultMaxOpenConns, defaultConnMaxLifetimeMins]

/-- Witness for C1 at the all-unset scenario configuration. -/
theorem c1_witness :
    clinicConfig.DbPort = none
    ∧ (clinicConfig.setDefaults LoggerKind.discardSilent).DbPort = some 3306
    ∧ (clinicConfig.setDefaults LoggerKind.discardSilent).MaxIdleConns = some 100
    ∧ (clinicConfig.setDefaults LoggerKind.discardSilent).MaxOpenConns = some 100
    ∧ (clinicConfig.setDefaults LoggerKind.discardSilent).ConnMaxLifetimeMins
        = some 15 := by
  have h := c1_setDefaults_documented_defaults clinicConfig LoggerKind.discardSilent
  exact ⟨rfl, h.1 rfl, h.2.1 rfl, h.2.2.1 rfl, h.2.2.2 rfl⟩

/-- Configuration with every optional field explicitly set, including
invalid (negative or zero) pool values, used to witness that default
resolution passes set values through unchecked. -/
def negConfig : OrmConfig :=
  { OnGCP := true
    DbName := "d"
    DbUser := "u"
    DbPassword := "p"
    DbHost := "h"
    DbPort := some 80
    MaxIdleConns := some (-5)
    MaxOpenConns := some (-7)
    ConnMaxLifetimeMins := some 0
    Logger := some (LoggerKind.custom 3) }

/-- C4: default resolution (`setDefaults`) never modifies a field that is
already set: every non-nil optional field keeps exactly its prior value
(even an invalid one, such as a negative pool size), the mandatory fields
are untouched, and `setDefaults` is a total function — it never fails or
rejects a configuration. -/
theorem c4_setDefaults_preserves_set_fields (c : OrmConfig) (l : LoggerKind) :
    (∀ v : Int, c.DbPort = some v → (c.setDefaults l).DbPort = some v)
    ∧ (∀ v : Int, c.MaxIdleConns = some v → (c.setDefaults l).MaxIdleConns = some v)
    ∧ (∀ v : Int, c.MaxOpenConns = some v → (c.setDefaults l).MaxOpenConns = some v)
    ∧ (∀ v : Int, c.ConnMaxLifetimeMins = some v →
        (c.setDefaults l).ConnMaxLifetimeMins = some v)
    ∧ (∀ lg : LoggerKind, c.Logger = some lg → (c.setDefaults l).Logger = some lg)
    ∧ (c.setDefaults l).OnGCP = c.OnGCP
    ∧ (c.setDefaults l).DbName = c.DbName
    ∧ (c.setDefaults l).DbUser = c.DbUser
    ∧ (c.setDefaults l).DbPassword = c.DbPassword
    ∧ (c.setDefaults l).DbHost = c.DbHost := by
  obtain ⟨gcp, nm, us, pw, hs, port, idle, opn, life, lg⟩ := c
  cases port <;> cases idle <;> cases opn <;> cases life <;> cases lg <;>
    simp [OrmConfig.setDefaults]

/-- Witness for C4 at a configuration whose pool values are set and
invalid (negative / zero): they pass through unchanged. -/
theorem c4_witness :
    (negConfig.setDefaults LoggerKind.defaultInfo).DbPort = some 80
    ∧ (negConfig.setDefaults LoggerKind.defaultInfo).MaxIdleConns = some (-5)
    ∧ (negConfig.setDefaults LoggerKind.defaultInfo).MaxOpenConns = some (-7)
    ∧ (negConfig.setDefaults LoggerKind.defaultInfo).ConnMaxLifetimeMins = some 0
    ∧ (negConfig.setDefaults LoggerKind.defaultInfo).Logger
        = some (LoggerKind.custom 3) := by
  have h := c4_setDefaults_preserves_set_fields negConfig LoggerKind.defaultInfo
  exact ⟨h.1 80 rfl, h.2.1 (-5) rfl, h.2.2.1 (-7) rfl, h.2.2.2.1 0 rfl,
    h.2.2.2.2.1 (LoggerKind.custom 3) rfl⟩

/-- C2: with socket mode disabled (OnGCP false) the builder produces
exactly the TCP descriptor
`user:password@tcp(host:port)/dbname?parseTime=true`, which contains
`tcp(host:port)` and omits the charset parameter; in particular the
scenario configuration `{name:"clinic", user:"u", password:"p", host:"h",
socketMode:false}` with the default port yields
`u:p@tcp(h:3306)/clinic?parseTime=true`. -/
theorem c2_tcp_descriptor (env : Option String) (c : OrmConfig) (p : Int)
    (hg : c.OnGCP = false) (hp : c.DbPort = some p) :
    dsn env c = some (c.DbUser ++ ":" ++ c.DbPassword ++ "@tcp(" ++ c.DbHost
        ++ ":" ++ toString p ++ ")/" ++ c.DbName ++ "?parseTime=true")
    ∧ (∃ l r, c.DbUser ++ ":" ++ c.DbPassword ++ "@tcp(" ++ c.DbHost
        ++ ":" ++ toString p ++ ")/" ++ c.DbName ++ "?parseTime=true"
        = l ++ ("tcp(" ++ c.DbHost ++ ":" ++ toString p ++ ")") ++ r)
    ∧ dsn none (clinicConfig.setDefaults defaultMySqlLogger)
        = some "u:p@tcp(h:3306)/clinic?parseTime=true"
    ∧ strContains "u:p@tcp(h:3306)/clinic?parseTime=true" "tcp(h:3306)" = true
    ∧ strContains "u:p@tcp(h:3306)/clinic?parseTime=true" "charset" = false := by
  refine ⟨?_, ⟨c.DbUser ++ ":" ++ c.DbPassword ++ "@",
      "/" ++ c.DbName ++ "?parseTime=true", ?_⟩, ?_, ?_, ?_⟩
  · simp [dsn, hg, tcpDsn, hp]
  · conv_lhs => rw [show ("@tcp(" : String) = "@" ++ "tcp(" from rfl,
        show (")/" : String) = ")" ++ "/" from rfl]
    simp only [String.append_assoc]
  · decide
  · decide
  · decide

/-- Witness for C2 at the resolved scenario configuration. -/
theorem c2_witness :
    dsn none (clinicConfig.setDefaults defaultMySqlLogger)
      = some ((clinicConfig.setDefaults defaultMySqlLogger).DbUser ++ ":"
        ++ (clinicConfig.setDefaults defaultMySqlLogger).DbPassword ++ "@tcp("
        ++ (clinicConfig.setDefaults defaultMySqlLogger).DbHost ++ ":"
        ++ toString (3306 : Int) ++ ")/"
        ++ (clinicConfig.setDefaults defaultMySqlLogger).DbName
        ++ "?parseTime=true") := by
  have h := c2_tcp_descriptor none (clinicConfig.setDefaults defaultMySqlLogger)
    3306 rfl rfl
  exact h.1

/-- The scenario configuration with socket mode enabled. -/
def clinicGcpConfig : OrmConfig :=
  { clinicConfig with OnGCP := true }

/-- C3: with socket mode enabled (OnGCP true) the builder produces exactly
`user:password@unix(/socketDir/host)/dbname?charset=utf8mb4&parseTime=true`,
where socketDir is the `DB_SOCKET_DIR` environment value when set and the
fixed literal `cloudsql` otherwise; in particular with the variable unset
the scenario configuration with `socketMode:true` yields
`u:p@unix(/cloudsql/h)/clinic?charset=utf8mb4&parseTime=true`. -/
theorem c3_unix_descriptor (env : Option String) (c : OrmConfig)
    (hg : c.OnGCP = true) :
    (∀ sd, env = some sd →
      dsn env c = some (c.DbUser ++ ":" ++ c.DbPassword ++ "@unix(/" ++ sd
        ++ "/" ++ c.DbHost ++ ")/" ++ c.DbName ++ "?charset=utf8mb4&parseTime=true"))
    ∧ (env = none →
      dsn env c = some (c.DbUser ++ ":" ++ c.DbPassword ++ "@unix(/cloudsql"
        ++ "/" ++ c.DbHost ++ ")/" ++ c.DbName ++ "?charset=utf8mb4&parseTime=true"))
    ∧ dsn none (clinicGcpConfig.setDefaults defaultMySqlLogger)
        = some "u:p@unix(/cloudsql/h)/clinic?charset=utf8mb4&parseTime=true"
    ∧ strContains "u:p@unix(/cloudsql/h)/clinic?charset=utf8mb4&parseTime=true"
        "/cloudsql/" = true
    ∧ strContains "u:p@unix(/cloudsql/h)/clinic?charset=utf8mb4&parseTime=true"
        "charset=utf8mb4" = true := by
  refine ⟨?_, ?_, ?_, ?_, ?_⟩
  · intro sd hsd
    subst hsd
    simp [dsn, hg, unixDsn]
  · intro hnone
    subst hnone
    simp [dsn, hg, unixDsn]
    conv_rhs =>
      rw [show ("@unix(/cloudsql" : String) = "@unix(/" ++ "cloudsql" from rfl]
    simp only [String.append_assoc]
  · decide
  · decide
  · decide

/-- Witness for C3 at the resolved scenario configuration, with the
environment variable set and unset. -/
theorem c3_witness :
    dsn none (clinicGcpConfig.setDefaults defaultMySqlLogger)
      = some "u:p@unix(/cloudsql/h)/clinic?charset=utf8mb4&parseTime=true" := by
  have h := c3_unix_descriptor none
    (clinicGcpConfig.setDefaults defaultMySqlLogger) rfl
  exact h.2.2.1

theorem newOrm_not_nilDeref (w : World) (db : GormDB) (c : OrmConfig)
    (i o f : Int)
    (hi : c.MaxIdleConns = some i) (ho : c.MaxOpenConns = some o)
    (hf : c.ConnMaxLifetimeMins = some f) :
    newOrm w db c ≠ ConstructorOutcome.panicked Err.nilDeref := by
  rcases w with ⟨oe, ue, de⟩
  cases ue <;> cases de <;>
    simp [newOrm, dbUse, dbDB, hi, ho, hf]

/-- C6: after default resolution every optional field is non-nil, the DSN
builder succeeds on every resolved configuration, and in `NewMySqlOrm` and
`NewSQLiteOrm` every dereference of an optional field happens after
`setDefaults`, so the nil-dereference panic branch is unreachable for
every input configuration and every failure environment. -/
theorem c6_no_unresolved_dereference (c : OrmConfig) (l : LoggerKind) :
    ((c.setDefaults l).DbPort).isSome = true
    ∧ ((c.setDefaults l).MaxIdleConns).isSome = true
    ∧ ((c.setDefaults l).MaxOpenConns).isSome = true
    ∧ ((c.setDefaults l).ConnMaxLifetimeMins).isSome = true
    ∧ ((c.setDefaults l).Logger).isSome = true
    ∧ (∀ env, (dsn env (c.setDefaults l)).isSome = true)
    ∧ (∀ w env, (NewMySqlOrm w env c).2 ≠ ConstructorOutcome.panicked Err.nilDeref)
    ∧ (∀ w, (NewSQLiteOrm w c).2 ≠ ConstructorOutcome.panicked Err.nilDeref) := by
  obtain ⟨hgcp, hnm, hus, hpw, hhs, hport, hidle, hopn, hlife, hlog⟩ :=
    setDefaults_spec c l
  refine ⟨by simp [hport], by simp [hidle], by simp [hopn], by simp [hlife],
    by simp [hlog], ?_, ?_, ?_⟩
  · intro env
    cases hOn : (c.setDefaults l).OnGCP <;> simp [dsn, hOn, tcpDsn, hport]
  · intro w env
    obtain ⟨-, -, -, -, -, hport2, hidle2, hopn2, hlife2, hlog2⟩ :=
      setDefaults_spec c defaultMySqlLogger
    have hdsn : ∃ d, dsn env (c.setDefaults defaultMySqlLogger) = some d := by
      cases hOn : (c.setDefaults defaultMySqlLogger).OnGCP <;>
        simp [dsn, hOn, tcpDsn, hport2]
    obtain ⟨d, hd⟩ := hdsn
    rcases w with ⟨oe, ue, de⟩
    cases oe with
    | some n => simp [NewMySqlOrm, hd, hlog2, gormOpen]
    | none =>
      simp only [NewMySqlOrm, hd, hlog2, gormOpen]
      exact newOrm_not_nilDeref ⟨none, ue, de⟩ _ _ _ _ _ hidle2 hopn2 hlife2
  · intro w
    obtain ⟨-, -, -, -, -, hport2, hidle2, hopn2, hlife2, hlog2⟩ :=
      setDefaults_spec c defaultSQLiteLogger
    rcases w with ⟨oe, ue, de⟩
    cases oe with
    | some n => simp [NewSQLiteOrm, hlog2, gormOpen]
    | none =>
      simp only [NewSQLiteOrm, hlog2, gormOpen]
      exact newOrm_not_nilDeref ⟨none, ue, de⟩ _ _ _ _ _ hidle2 hopn2 hlife2

/-- The failure environment in which every external setup call succeeds. -/
def wAllOk : World :=
  { openErr := none, useErr := none, dbErr := none }

/-- Witness for C6: the constructors do not hit the nil-dereference branch
on the all-unset scenario configuration. -/
theorem c6_witness :
    (NewMySqlOrm wAllOk none clinicConfig).2
      ≠ ConstructorOutcome.panicked Err.nilDeref := by
  exact (c6_no_unresolved_dereference clinicConfig
    LoggerKind.discardSilent).2.2.2.2.2.2.1 wAllOk none

/-- C5: handle construction never returns an error value.  Whenever
opening the engine fails, installing the tracing plugin fails, or
retrieving the pool fails, the constructor panics with that error instead
of returning; a non-panicking call always returns a fully-wired handle:
the plugin installed and the pool limits applied from the resolved
configuration. -/
theorem c5_constructors_panic_never_return_error (w : World) (env : Option String) (c : OrmConfig) :
    (∀ n, w.openErr = some n →
      (NewMySqlOrm w env c).2 = ConstructorOutcome.panicked (Err.external n)
      ∧ (NewSQLiteOrm w c).2 = ConstructorOutcome.panicked (Err.external n))
    ∧ (w.openErr = none → ∀ n, w.useErr = some n →
      (NewMySqlOrm w env c).2 = ConstructorOutcome.panicked (Err.external n)
      ∧ (NewSQLiteOrm w c).2 = ConstructorOutcome.panicked (Err.external n))
    ∧ (w.openErr = none → w.useErr = none → ∀ n, w.dbErr = some n →
      (NewMySqlOrm w env c).2 = ConstructorOutcome.panicked (Err.external n)
      ∧ (NewSQLiteOrm w c).2 = ConstructorOutcome.panicked (Err.external n))
    ∧ (w.openErr = none → w.useErr = none → w.dbErr = none →
      (∃ o : Orm, (NewMySqlOrm w env c).2 = ConstructorOutcome.returned o
        ∧ o.config = c.setDefaults defaultMySqlLogger
        ∧ o.db.plugins = ["otelgorm"]
        ∧ o.config.MaxIdleConns = some o.db.pool.maxIdleConns
        ∧ o.config.MaxOpenConns = some o.db.pool.maxOpenConns
        ∧ o.config.ConnMaxLifetimeMins.map (fun m => m * nanosPerMinute)
            = some o.db.pool.connMaxLifetime)
      ∧ (∃ o : Orm, (NewSQLiteOrm w c).2 = ConstructorOutcome.returned o
        ∧ o.config = c.setDefaults defaultSQLiteLogger
        ∧ o.db.source = "file::memory:?cache=shared"
        ∧ o.db.plugins = ["otelgorm"]
        ∧ o.config.MaxIdleConns = some o.db.pool.maxIdleConns
        ∧ o.config.MaxOpenConns = some o.db.pool.maxOpenConns
        ∧ o.config.ConnMaxLifetimeMins.map (fun m => m * nanosPerMinute)
            = some o.db.pool.connMaxLifetime)) := by
  obtain ⟨-, -, -, -, -, hport2, hidle2, hopn2, hlife2, hlog2⟩ :=
    setDefaults_spec c defaultMySqlLogger
  obtain ⟨-, -, -, -, -, hport3, hidle3, hopn3, hlife3, hlog3⟩ :=
    setDefaults_spec c defaultSQLiteLogger
  have hdsn : ∃ d, dsn env (c.setDefaults defaultMySqlLogger) = some d := by
    cases hOn : (c.setDefaults defaultMySqlLogger).OnGCP <;>
      simp [dsn, hOn, tcpDsn, hport2]
  obtain ⟨d, hd⟩ := hdsn
  rcases w with ⟨oe, ue, de⟩
  refine ⟨?_, ?_, ?_, ?_⟩
  · intro n hn
    simp only at hn
    subst hn
    constructor <;> simp [NewMySqlOrm, NewSQLiteOrm, hd, hlog2, hlog3, gormOpen]
  · intro hoe n hn
    simp only at hoe hn
    subst hoe; subst hn
    constructor <;>
      simp [NewMySqlOrm, NewSQLiteOrm, hd, hlog2, hlog3, gormOpen, newOrm, dbUse]
  · intro hoe hue n hn
    simp only at hoe hue hn
    subst hoe; subst hue; subst hn
    constructor <;>
      simp [NewMySqlOrm, NewSQLiteOrm, hd, hlog2, hlog3, gormOpen, newOrm, dbUse, dbDB]
  · intro hoe hue hde
    simp only at hoe hue hde
    subst hoe; subst hue; subst hde
    constructor
    · refine ⟨Orm.mk
        (GormDB.mk d (c.Logger.getD defaultMySqlLogger) ["otelgorm"]
          (SqlDB.mk (c.MaxIdleConns.getD defaultMaxIdleConns)
            (c.MaxOpenConns.getD defaultMaxOpenConns)
            ((c.ConnMaxLifetimeMins.getD defaultConnMaxLifetimeMins) * nanosPerMinute)))
        (c.setDefaults defaultMySqlLogger),
        ?_, rfl, rfl, hidle2, hopn2, by rw [hlife2]; rfl⟩
      simp only [NewMySqlOrm, hd, hlog2, gormOpen, newOrm, dbUse, dbDB,
        hidle2, hopn2, hlife2]
      rfl
    · refine ⟨Orm.mk
        (GormDB.mk "file::memory:?cache=shared" (c.Logger.getD defaultSQLiteLogger)
          ["otelgorm"]
          (SqlDB.mk (c.MaxIdleConns.getD defaultMaxIdleConns)
            (c.MaxOpenConns.getD defaultMaxOpenConns)
            ((c.ConnMaxLifetimeMins.getD defaultConnMaxLifetimeMins) * nanosPerMinute)))
        (c.setDefaults defaultSQLiteLogger),
        ?_, rfl, rfl, rfl, hidle3, hopn3, by rw [hlife3]; rfl⟩
      simp only [NewSQLiteOrm, hlog3, gormOpen, newOrm, dbUse, dbDB,
        hidle3, hopn3, hlife3]
      rfl

/-- Witness for C5: with every external call succeeding, `NewMySqlOrm` on
the scenario configuration returns a fully-wired handle. -/
theorem c5_witness :
    ∃ o : Orm, (NewMySqlOrm wAllOk none clinicConfig).2 = ConstructorOutcome.returned o
      ∧ o.config = clinicConfig.setDefaults defaultMySqlLogger
      ∧ o.db.plugins = ["otelgorm"]
      ∧ o.config.MaxIdleConns = some o.db.pool.maxIdleConns
      ∧ o.config.MaxOpenConns = some o.db.pool.maxOpenConns
      ∧ o.config.ConnMaxLifetimeMins.map (fun m => m * nanosPerMinute)
          = some o.db.pool.connMaxLifetime := by
  exact ((c5_constructors_panic_never_return_error wAllOk none
    clinicConfig).2.2.2 rfl rfl rfl).1

/-- C7: `RunMigrations` returns nil exactly when the delegated migration
run applies all pending steps cleanly; when a pending step's forward
action fails, the first failure is returned unchanged, steps after the
failure point are not attempted (the attempted log extends only to the
failing step), and — without transaction wrapping — steps applied before
the failure remain recorded as applied.  The final conjunct: when every
forward action always succeeds, the run returns nil. -/
theorem c7_runMigrations_propagates_first_failure (o : Orm) (g : GlobalState) (s : MigTrackState)
    (p : OptionsPtr) (ms : List GMigration) :
    ((Orm.RunMigrations o g s p ms).2.2 = Except.ok ()
      ↔ (gormigrateMigrate (readOptions g (resolvePtr p)).UseTransaction ms s).2
          = none)
    ∧ (∀ e, (gormigrateMigrate (readOptions g (resolvePtr p)).UseTransaction ms s).2
          = some e →
        (Orm.RunMigrations o g s p ms).2.2 = Except.error e)
    ∧ (∀ pre m post, ms = pre ++ m :: post →
        (readOptions g (resolvePtr p)).UseTransaction = false →
        (goMig pre s).2 = none →
        m.ID ∉ (goMig pre s).1.applied →
        ∀ e, m.MigrateFn (goMig pre s).1.db = Except.error e →
          (Orm.RunMigrations o g s p ms).2.2 = Except.error e
          ∧ (Orm.RunMigrations o g s p ms).2.1
            = { (goMig pre s).1 with
                attempted := (goMig pre s).1.attempted ++ [m.ID] })
    ∧ ((∀ mg, mg ∈ ms → ∀ d, ∃ d2, mg.MigrateFn d = Except.ok d2) →
        (Orm.RunMigrations o g s p ms).2.2 = Except.ok ()) := by
  refine ⟨?_, ?_, ?_, ?_⟩
  · unfold Orm.RunMigrations
    rcases h : gormigrateMigrate (readOptions g (resolvePtr p)).UseTransaction ms s
      with ⟨fin, err⟩
    cases err <;> simp [h]
  · intro e he
    unfold Orm.RunMigrations
    rcases hfull : gormigrateMigrate (readOptions g (resolvePtr p)).UseTransaction ms s
      with ⟨fin, err⟩
    rw [hfull] at he
    simp only at he
    subst he
    simp [hfull]
  · intro pre m post hms hutf hpre hmem e hfail
    subst hms
    have hgo : goMig (pre ++ m :: post) s
        = ({ (goMig pre s).1 with
              attempted := (goMig pre s).1.attempted ++ [m.ID] }, some e) := by
      rw [goMig_append]
      rcases hp : goMig pre s with ⟨s1, err1⟩
      rw [hp] at hpre hmem hfail
      simp only at hpre hmem hfail
      subst hpre
      simp only [goMig, if_neg hmem, hfail]
    have hmig : gormigrateMigrate (readOptions g (resolvePtr p)).UseTransaction
        (pre ++ m :: post) s
        = ({ (goMig pre s).1 with
              attempted := (goMig pre s).1.attempted ++ [m.ID] }, some e) := by
      rw [hutf, gormigrateMigrate_false, hgo]
    unfold Orm.RunMigrations
    simp [hmig]
  · intro hall
    have herr : (gormigrateMigrate (readOptions g (resolvePtr p)).UseTransaction ms s).2
        = none := by
      rw [gormigrateMigrate_snd]
      exact goMig_ok_of_all_ok ms s hall
    unfold Orm.RunMigrations
    rcases hfull : gormigrateMigrate (readOptions g (resolvePtr p)).UseTransaction ms s
      with ⟨fin, err⟩
    rw [hfull] at herr
    simp only at herr
    subst herr
    simp [hfull]

/-- Fixture handle for the migration wrapper theorems. -/
def ormFixture : Orm :=
  { db :=
      { source := ""
        loggerUsed := LoggerKind.discardSilent
        plugins := []
        pool := { maxIdleConns := 0, maxOpenConns := 0, connMaxLifetime := 0 } }
    config := clinicConfig }

/-- Global state whose shared default options are in their initial
state. -/
def g0 : GlobalState := { defaultOptions := gormigrateDefaultOptionsInit }

/-- Fresh migration-tracking state: nothing applied. -/
def s0 : MigTrackState := { db := 0, applied := [], attempted := [] }

/-- A migration step whose forward action succeeds. -/
def mOk : GMigration :=
  { ID := "001", MigrateFn := fun d => Except.ok (d + 1), RollbackFn := none }

/-- A migration step whose forward action fails with external error 7. -/
def mBad : GMigration :=
  { ID := "002", MigrateFn := fun _ => Except.error (Err.external 7),
    RollbackFn := none }

/-- A migration step after the failing one. -/
def mAfter : GMigration :=
  { ID := "003", MigrateFn := fun d => Except.ok (d + 1), RollbackFn := none }

/-- Witness for C7: a run over ok-then-failing-then-unreached steps
returns the first failure unchanged, records only the prefix as applied,
and never attempts the step after the failure. -/
theorem c7_witness :
    (Orm.RunMigrations ormFixture g0 s0 OptionsPtr.null [mOk, mBad, mAfter]).2.2
        = Except.error (Err.external 7)
    ∧ (Orm.RunMigrations ormFixture g0 s0 OptionsPtr.null [mOk, mBad, mAfter]).2.1
        = { db := 1, applied := ["001"], attempted := ["001", "002"] } := by
  have h := (c7_runMigrations_propagates_first_failure ormFixture g0 s0
    OptionsPtr.null [mOk, mBad, mAfter]).2.2.1
    [mOk] mBad [mAfter] rfl rfl rfl (by decide) (Err.external 7) rfl
  exact ⟨h.1, h.2.trans (by rfl)⟩

/-- C8: `RollbackLastMigration` reverses exactly the most recently applied
step — invoking its reverse action and removing its applied-record — and
fails with state unchanged when nothing is recorded as applied (hence also
when invoked again after everything is rolled back), when the most recent
step has no reverse action, or when the reverse action itself errors. -/
theorem c8_rollbackLast_reverses_most_recent (m : migration.Migration) (s : MigTrackState)
    (ms : List GMigration) :
    (s.applied = [] →
      migration.RollbackLastMigration m s ms
        = (s, Except.error Err.noRunMigration))
    ∧ (∀ pre lastId, s.applied = pre ++ [lastId] →
        ∀ gmig, ms.find? (fun x => x.ID == lastId) = some gmig →
          (gmig.RollbackFn = none →
            migration.RollbackLastMigration m s ms
              = (s, Except.error Err.rollbackImpossible))
          ∧ (∀ rb, gmig.RollbackFn = some rb →
              (∀ e, rb s.db = Except.error e →
                migration.RollbackLastMigration m s ms = (s, Except.error e))
              ∧ (∀ d2, rb s.db = Except.ok d2 →
                  migration.RollbackLastMigration m s ms
                    = ({ s with db := d2, applied := pre }, Except.ok ())))) := by
  refine ⟨?_, ?_⟩
  · intro h
    simp [migration.RollbackLastMigration, gormigrateRollbackLast, h]
  · intro pre lastId happ gmig hfind
    have hlast : s.applied.getLast? = some lastId := by
      rw [happ]
      exact List.getLast?_concat _
    refine ⟨?_, ?_⟩
    · intro hrb
      simp [migration.RollbackLastMigration, gormigrateRollbackLast, hlast,
        hfind, hrb]
    · intro rb hrb
      refine ⟨?_, ?_⟩
      · intro e he
        simp [migration.RollbackLastMigration, gormigrateRollbackLast, hlast,
          hfind, hrb, he]
      · intro d2 hd2
        simp [migration.RollbackLastMigration, gormigrateRollbackLast, hlast,
          hfind, hrb, hd2, happ, List.dropLast_concat]

/-- A migration step with a reverse action. -/
def mRb : GMigration :=
  { ID := "001", MigrateFn := fun d => Except.ok d,
    RollbackFn := some (fun d => Except.ok (d + 10)) }

/-- Fixture migration object holding the initial default options. -/
def migFixture : migration.Migration :=
  { db := ormFixture, options := gormigrateDefaultOptionsInit }

/-- Tracking state with step "001" applied. -/
def s1 : MigTrackState := { db := 5, applied := ["001"], attempted := ["001"] }

/-- Witness for C8: rolling back with one applied step invokes its reverse
action and removes the record; rolling back with nothing applied fails
with the sentinel error and leaves the state unchanged. -/
theorem c8_witness :
    migration.RollbackLastMigration migFixture s1 [mRb]
        = ({ db := 15, applied := [], attempted := ["001"] }, Except.ok ())
    ∧ migration.RollbackLastMigration migFixture s0 [mRb]
        = (s0, Except.error Err.noRunMigration) := by
  have h1 := ((c8_rollbackLast_reverses_most_recent migFixture s1 [mRb]).2
    [] "001" rfl mRb rfl).2 (fun d => Except.ok (d + 10)) rfl
  have h2 := (c8_rollbackLast_reverses_most_recent migFixture s0 [mRb]).1 rfl
  exact ⟨(h1.2 15 rfl).trans (by rfl), h2⟩

/-- C9 counterexample: at the initial global state, the empty migration
list and a fresh tracking state, `RunMigrationsInSingleTransaction` does
not have the same effect as `RunMigrations` with a by-value copy of the
default options with `UseTransaction` set: the former mutates the shared
global default options (writes `UseTransaction = true` through the
`DefaultOptions` pointer), the latter leaves them untouched. -/
theorem c9_counterexample :
    (Orm.RunMigrationsInSingleTransaction ormFixture g0 s0 []).1
      ≠ (specRunMigrationsDefaultsSingleTx ormFixture g0 s0 []).1 := by
  decide

/-- C9 (amended): `RunMigrationsInSingleTransaction(migrations)` returns
the same result and has the same effect on the migration state as
`RunMigrations(options, migrations)` with options equal to the delegated
library's default options with `UseTransaction` set to true — but in
addition it permanently mutates the shared global default options, setting
their `UseTransaction` flag to true, because `options :=
gormigrate.DefaultOptions` copies a pointer and the flag is written
through it. -/
theorem c9_singleTransaction_same_result_mutates_globals (o : Orm)
    (g : GlobalState) (s : MigTrackState) (ms : List GMigration) :
    (Orm.RunMigrationsInSingleTransaction o g s ms).2
      = (specRunMigrationsDefaultsSingleTx o g s ms).2
    ∧ (Orm.RunMigrationsInSingleTransaction o g s ms).1
      = { defaultOptions := { g.defaultOptions with UseTransaction := true } }
    ∧ (specRunMigrationsDefaultsSingleTx o g s ms).1 = g := by
  unfold Orm.RunMigrationsInSingleTransaction specRunMigrationsDefaultsSingleTx
    Orm.RunMigrations
  simp only [readOptions, resolvePtr]
  rcases h : gormigrateMigrate
      ({ g.defaultOptions with UseTransaction := true }).UseTransaction ms s
    with ⟨fin, err⟩
  cases err <;> simp [h]

/-- C10: `NewMigration` copies the shared default options by value before
applying the caller's option functions in order, so applying
`WithUseTransaction` yields a `Migration` whose options have
`UseTransaction` true, every other option field equal to the defaults, and
the shared global default options unchanged. -/
theorem c10_newMigration_copies_defaults_by_value (g : GlobalState) (db : Orm) :
    (migration.NewMigration g db [migration.WithUseTransaction]).1.options.UseTransaction
        = true
    ∧ (migration.NewMigration g db [migration.WithUseTransaction]).1.options.TableName
        = g.defaultOptions.TableName
    ∧ (migration.NewMigration g db [migration.WithUseTransaction]).1.options.IDColumnName
        = g.defaultOptions.IDColumnName
    ∧ (migration.NewMigration g db [migration.WithUseTransaction]).1.options.IDColumnSize
        = g.defaultOptions.IDColumnSize
    ∧ (migration.NewMigration g db [migration.WithUseTransaction]).1.options.ValidateUnknownMigrations
        = g.defaultOptions.ValidateUnknownMigrations
    ∧ (migration.NewMigration g db [migration.WithUseTransaction]).2 = g
    ∧ (∀ fs, (migration.NewMigration g db fs).2 = g) := by
  exact ⟨rfl, rfl, rfl, rfl, rfl, rfl, fun fs => rfl⟩
